import Mathlib

/-!
Shallow embedding of the Vidyaverse backend (`backend/server.py`).

External effects are made explicit:
* the document store is a list of records threaded through each handler;
* the hosted language-model call is an `LlmCall` value describing its
  outcome (the call raised, the response failed JSON parsing, or it parsed);
* `uuid.uuid4()` and `datetime.utcnow()` become explicit `genId`/`now`
  arguments;
* bcrypt checking and password hashing become function arguments;
* Python `float` fields carry `ℚ` values (no arithmetic is performed on
  them), Python `datetime` values become `Nat` seconds, and raw bytes
  become `Nat` values below 256.

HTTP errors are `Except Nat` (the status code) or `Except (Nat × String)`
when the detail string matters.
-/

namespace Vidyaverse

/-- Python truthiness of an optional string: `None` and `""` are falsy. -/
def pyTruthy : Option String → Bool
  | none => false
  | some s => s ≠ ""

/-- Python `x or d` for an optional string `x`: the default is taken when
`x` is `None` or empty. -/
def pyOr (x : Option String) (d : String) : String :=
  match x with
  | none => d
  | some s => if s = "" then d else s

/-- `bool(s.strip())` in Python: the string holds a non-whitespace char. -/
def pyStripTruthy (s : String) : Bool :=
  s.toList.any (fun c => !c.isWhitespace)

/-- Does `needle` start `hay`? (list version of Python `str.startswith`). -/
def listStartsWith : List Char → List Char → Bool
  | [], _ => true
  | _ :: _, [] => false
  | a :: as, b :: bs => a == b && listStartsWith as bs

/-- Python `needle in hay` on strings: substring containment. -/
def listContainsSub (needle : List Char) : List Char → Bool
  | [] => needle.isEmpty
  | c :: t => listStartsWith needle (c :: t) || listContainsSub needle t

/-- Python `needle in hay` for `String`s. -/
def strIn (needle hay : String) : Bool :=
  listContainsSub needle.toList hay.toList

/-- Outcome of one call to the hosted model followed by `json.loads`:
the surrounding code raised, the response text was not parseable as JSON,
or a value of the expected shape was parsed. -/
inductive LlmCall (α : Type) where
  | raised
  | parseFail (raw : String)
  | parsed (a : α)
deriving Repr

/-! ## AI analysis (`get_ai_analysis`, server.py 406-476) -/

/-- JSON object produced by `get_ai_analysis` (ten fixed keys). -/
structure AIData where
  summary : String
  learning_objectives : List String
  topics : List String
  themes : List String
  recommended_grade : String
  subject_category : String
  difficulty : String
  educational_value : String
  keywords : List String
  prerequisites : String
deriving Repr, DecidableEq

/-- The hardcoded object returned when `json.loads` on the model response
raises (server.py 449-460). -/
def analysisParseFallback (title author : String)
    (grade_level subject : Option String) : AIData :=
  { summary := "Educational content analysis available"
    learning_objectives := ["Comprehensive learning experience"]
    topics := ["Various educational topics"]
    themes := ["Educational content"]
    recommended_grade := pyOr grade_level "5th"
    subject_category := pyOr subject "General Education"
    difficulty := "Intermediate"
    educational_value := "Engaging educational content"
    keywords := [title.toLower, author.toLower]
    prerequisites := "Basic reading comprehension" }

/-- The object returned when the model call itself raises
(server.py 463-476). -/
def analysisErrorFallback (grade_level subject : Option String) : AIData :=
  { summary := "Content analysis pending"
    learning_objectives := []
    topics := []
    themes := []
    recommended_grade := pyOr grade_level "5th"
    subject_category := pyOr subject "General"
    difficulty := "Unknown"
    educational_value := "Educational content"
    keywords := []
    prerequisites := "None specified" }

/-- `get_ai_analysis` (server.py 406-476): forwards a prompt to the model
and parses the reply, with one fallback per failure mode. -/
def get_ai_analysis (outcome : LlmCall AIData) (title author : String)
    (grade_level subject : Option String) : AIData :=
  match outcome with
  | .parsed d => d
  | .parseFail _ => analysisParseFallback title author grade_level subject
  | .raised => analysisErrorFallback grade_level subject

/-! ## Document records -/

/-- A stored book document (pydantic `Book`, server.py 119-134). -/
structure Book where
  id : String
  title : String
  author : String
  content : String
  grade_level : Option String
  subject : Option String
  textbook_id : Option String
  chapter : Option String
  file_url : Option String
  summary : String
  keywords : List String
  ai_insights : Option AIData
  created_by : String
  created_at : Nat
  file_type : Option String
deriving Repr, DecidableEq

/-- A stored user document (pydantic `User`, server.py 46-57).
`preferences : Dict[str, Any]` is modelled as a string association list. -/
structure User where
  id : String
  email : String
  name : String
  password_hash : String
  grade : Option String
  subjects : List String
  selected_textbooks : List (String × List String)
  preferences : List (String × String)
  reading_history : List String
  onboarding_completed : Bool
  created_at : Nat
deriving Repr, DecidableEq

/-! ## Semantic search (`get_semantic_search_results`, server.py 478-552) -/

/-- The per-book record embedded in the search and recommendation prompts
(server.py 504 and 592): id, title, author, grade_level, subject, summary,
keywords. -/
structure CandidateRec where
  id : String
  title : String
  author : String
  grade_level : Option String
  subject : Option String
  summary : String
  keywords : List String
deriving Repr, DecidableEq

/-- Project a book onto the record embedded in a prompt. -/
def candidateOf (b : Book) : CandidateRec :=
  { id := b.id, title := b.title, author := b.author
    grade_level := b.grade_level, subject := b.subject
    summary := b.summary, keywords := b.keywords }

/-- The substring test of the search fallback (server.py 538-540):
the lowercased query occurs in the lowercased title, the lowercased
author, or the first 1000 characters of the lowercased content. -/
def searchMatches (query : String) (b : Book) : Bool :=
  strIn query.toLower b.title.toLower ||
  strIn query.toLower b.author.toLower ||
  strIn query.toLower (b.content.toLower.take 1000)

/-- `grade_match and subject_match` of the search fallback
(server.py 535-536). -/
def gradeSubjectMatch (user_grade : Option String) (user_subjects : List String)
    (b : Book) : Bool :=
  (!pyTruthy user_grade || !pyTruthy b.grade_level || b.grade_level == user_grade) &&
  (user_subjects.isEmpty || !pyTruthy b.subject ||
    (match b.subject with
     | some s => user_subjects.contains s
     | none => false))

/-- One iteration of the fallback loop (server.py 533-546): a matching
book is prepended when grade and subject both match, appended otherwise. -/
def searchFallbackStep (query : String) (user_grade : Option String)
    (user_subjects : List String) (results : List Book) (b : Book) : List Book :=
  if searchMatches query b then
    if gradeSubjectMatch user_grade user_subjects b then b :: results
    else results ++ [b]
  else results

/-- The substring-match fallback of semantic search (server.py 530-548):
scan every book, order grade/subject matches first, return at most 10. -/
def searchFallback (books : List Book) (query : String)
    (user_grade : Option String) (user_subjects : List String) : List Book :=
  (books.foldl (searchFallbackStep query user_grade user_subjects) []).take 10

/-- What `get_semantic_search_results` sends and returns: the candidate
records embedded in the prompt (server.py 504) and the result list. -/
structure SearchResult where
  prompt_candidates : List CandidateRec
  results : List Book
deriving Repr

/-- `get_semantic_search_results` (server.py 478-552). The prompt embeds
`books[:20]`; a parsed response is a list of book ids fetched back from
the store; a parse failure triggers the substring fallback; a raise
anywhere returns `[]`. -/
def get_semantic_search_results (books : List Book) (user_grade : Option String)
    (user_subjects : List String) (query : String)
    (outcome : LlmCall (List String)) : SearchResult :=
  { prompt_candidates := (books.take 20).map candidateOf
    results :=
      match outcome with
      | .raised => []
      | .parsed ids => ids.filterMap (fun i => books.find? (fun b => b.id == i))
      | .parseFail _ => searchFallback books query user_grade user_subjects }

/-! ## Recommendations (`generate_recommendations`, server.py 554-631) -/

/-- The JSON object expected from the recommendation model
(server.py 601): `rec_data.get` defaults are modelled by `Option`. -/
structure RecParsed where
  book_ids : Option (List String)
  reasoning : Option String
deriving Repr

/-- Result of `generate_recommendations`, with the candidate records
embedded in the prompt (server.py 592) carried alongside. -/
structure RecResult where
  prompt_candidates : List CandidateRec
  recommended_books : List String
  reasoning : String
deriving Repr

/-- One iteration of the recommendation fallback loop (server.py 617-622):
grade matches are prepended, subject matches (or all, when the user has no
subjects) appended, the rest dropped. -/
def recFallbackStep (user_grade : Option String) (user_subjects : List String)
    (acc : List Book) (b : Book) : List Book :=
  if pyTruthy user_grade && b.grade_level == user_grade then b :: acc
  else if user_subjects.isEmpty ||
      (match b.subject with
       | some s => user_subjects.contains s
       | none => false) then acc ++ [b]
  else acc

/-- The unread books (server.py 572): all books whose id is not in the
user's reading history. -/
def unreadBooks (all_books : List Book) (reading_history : List String) : List Book :=
  all_books.filter (fun b => !reading_history.contains b.id)

/-- `generate_recommendations` (server.py 554-631). The prompt embeds
`unread_books[:30]`; a parse failure triggers the grade/subject fallback;
a raise returns no books with the "temporarily unavailable" reasoning. -/
def generate_recommendations (user : Option User) (all_books : List Book)
    (outcome : LlmCall RecParsed) : RecResult :=
  match user with
  | none =>
      { prompt_candidates := [], recommended_books := []
        reasoning := "User not found" }
  | some u =>
      let unread := unreadBooks all_books u.reading_history
      if unread.isEmpty then
        { prompt_candidates := [], recommended_books := []
          reasoning := "No unread books available" }
      else
        let cands := (unread.take 30).map candidateOf
        match outcome with
        | .raised =>
            { prompt_candidates := cands, recommended_books := []
              reasoning := "Recommendations temporarily unavailable" }
        | .parsed r =>
            { prompt_candidates := cands
              recommended_books := r.book_ids.getD []
              reasoning := r.reasoning.getD
                ("Personalized educational recommendations for " ++
                  pyOr u.grade "your" ++ " grade level") }
        | .parseFail _ =>
            let filtered := unread.foldl (recFallbackStep u.grade u.subjects) []
            { prompt_candidates := cands
              recommended_books := (filtered.take 5).map (fun b => b.id)
              reasoning := "Educational recommendations tailored for " ++
                pyOr u.grade "your" ++ " grade level and preferred subjects" }

/-! ## PDF text extraction (`extract_pdf_text`, server.py 380-404)

The two PDF libraries are modelled by the data they would deliver:
* `plumber : Option (List (Option String))` — `none` when `pdfplumber`
  raises, otherwise one `Option String` per page (`page.extract_text()`
  may return `None`, modelled as `none`; empty pages are also skipped by
  the `if page_text:` truthiness test);
* `pypdf : Option (List String)` — `none` when the `PyPDF2` block raises,
  otherwise one string per page. -/

/-- The text pdfplumber accumulates (server.py 385-389): truthy page
texts joined with a trailing newline each. -/
def plumberText (pages : List (Option String)) : String :=
  pages.foldl
    (fun text p =>
      match p with
      | some t => if t = "" then text else text ++ t ++ "\n"
      | none => text) ""

/-- The PyPDF2 fallback block (server.py 395-404). -/
def pypdf2Text (pypdf : Option (List String)) : String :=
  match pypdf with
  | some pages => pages.foldl (fun text t => text ++ t ++ "\n") ""
  | none => "Could not extract text from PDF"

/-- `extract_pdf_text` (server.py 380-404): pdfplumber first, kept only
when its text has a non-whitespace character, PyPDF2 second, and a
literal error string last. -/
def extract_pdf_text (plumber : Option (List (Option String)))
    (pypdf : Option (List String)) : String :=
  match plumber with
  | some pages =>
      let text := plumberText pages
      if pyStripTruthy text then text else pypdf2Text pypdf
  | none => pypdf2Text pypdf

/-! ## Base64 (`base64.b64encode`, used at server.py 828)

Bytes are `Nat` values below 256. The encoder is standard base64 with
`=` padding, as produced by Python's `base64.b64encode`; the decoder is
the standard inverse used to read the stored data URL back. -/

/-- The 64-character base64 alphabet. -/
def b64Alphabet : List Char :=
  "ABCDEFGHIJKLMNOPQRSTUVWXYZabcdefghijklmnopqrstuvwxyz0123456789+/".toList

/-- The alphabet character of a sextet. -/
def b64EncChar (n : Nat) : Char := b64Alphabet.getD n 'A'

/-- The sextet of an alphabet character, `none` off the alphabet. -/
def b64DecChar (c : Char) : Option Nat :=
  let i := List.findIdx (fun x => x == c) b64Alphabet
  if i < 64 then some i else none

/-- Base64-encode a byte list, three bytes to four characters, with
`=` padding on a trailing group of one or two bytes. -/
def b64Encode : List Nat → List Char
  | [] => []
  | [a] => [b64EncChar (a / 4), b64EncChar (a % 4 * 16), '=', '=']
  | [a, b] => [b64EncChar (a / 4), b64EncChar (a % 4 * 16 + b / 16),
      b64EncChar (b % 16 * 4), '=']
  | a :: b :: c :: rest =>
      b64EncChar (a / 4) :: b64EncChar (a % 4 * 16 + b / 16) ::
      b64EncChar (b % 16 * 4 + c / 64) :: b64EncChar (c % 64) :: b64Encode rest

/-- Base64-decode a character list, `none` on malformed input. -/
def b64Decode : List Char → Option (List Nat)
  | [] => some []
  | c1 :: c2 :: c3 :: c4 :: rest =>
      (b64DecChar c1).bind (fun s1 =>
        (b64DecChar c2).bind (fun s2 =>
          if c3 = '=' then
            if c4 = '=' ∧ rest = [] then some [s1 * 4 + s2 / 16] else none
          else
            (b64DecChar c3).bind (fun s3 =>
              if c4 = '=' then
                if rest = [] then
                  some [s1 * 4 + s2 / 16, s2 % 16 * 16 + s3 / 4]
                else none
              else
                (b64DecChar c4).bind (fun s4 =>
                  (b64Decode rest).map
                    (fun tail => (s1 * 4 + s2 / 16) ::
                      (s2 % 16 * 16 + s3 / 4) :: (s3 % 4 * 64 + s4) :: tail)))))
  | _ => none

/-- `base64.b64encode(file_content).decode('utf-8')` (server.py 828). -/
def b64EncodeString (bs : List Nat) : String := String.mk (b64Encode bs)

/-- Decode the payload of a stored data URL. -/
def b64DecodeString (s : String) : Option (List Nat) := b64Decode s.toList

/-! ## Book creation and upload (server.py 771-850) -/

/-- `create_book` (server.py 771-801): AI analysis then a fresh book
document with `file_type = "text"` and no `file_url`. -/
def create_book (title author : String) (content : Option String)
    (grade_level subject textbook_id chapter : Option String)
    (aiOutcome : LlmCall AIData) (genId uid : String) (now : Nat) : Book :=
  let ai := get_ai_analysis aiOutcome title author grade_level subject
  { id := genId, title := title, author := author
    content := content.getD ""
    grade_level := if pyTruthy grade_level then grade_level
      else some ai.recommended_grade
    subject := if pyTruthy subject then subject else some ai.subject_category
    textbook_id := textbook_id, chapter := chapter, file_url := none
    summary := ai.summary, keywords := ai.keywords, ai_insights := some ai
    created_by := uid, created_at := now, file_type := some "text" }

/-- The content-type dispatch of `upload_book` (server.py 817-825):
PDF extraction for `application/pdf`, UTF-8 decoding for `text/*`
(`textDecode` is `none` when `decode('utf-8')` raises, which propagates
as a server error), HTTP 400 otherwise. -/
def uploadExtract (content_type : String) (textDecode : Option String)
    (plumber : Option (List (Option String))) (pypdf : Option (List String)) :
    Except Nat (String × String) :=
  if content_type = "application/pdf" then
    .ok (extract_pdf_text plumber pypdf, "pdf")
  else if listStartsWith "text/".toList content_type.toList then
    match textDecode with
    | some t => .ok (t, "text")
    | none => .error 500
  else .error 400

/-- `upload_book` (server.py 803-850): dispatch on the content type,
base64-encode the raw bytes into a data URL, run the AI analysis, and
store the book document. -/
def upload_book (title author : String)
    (grade_level subject textbook_id chapter : Option String)
    (content_type : String) (file_content : List Nat)
    (textDecode : Option String)
    (plumber : Option (List (Option String))) (pypdf : Option (List String))
    (aiOutcome : LlmCall AIData) (genId uid : String) (now : Nat) :
    Except Nat Book :=
  match uploadExtract content_type textDecode plumber pypdf with
  | .error e => .error e
  | .ok (extracted_text, file_type) =>
      let file_data := b64EncodeString file_content
      let ai := get_ai_analysis aiOutcome title author grade_level subject
      let book : Book :=
        { id := genId, title := title, author := author
          content := extracted_text
          grade_level := if pyTruthy grade_level then grade_level
            else some ai.recommended_grade
          subject := if pyTruthy subject then subject
            else some ai.subject_category
          textbook_id := textbook_id, chapter := chapter
          file_url := some ("data:" ++ content_type ++ ";base64," ++ file_data)
          summary := ai.summary, keywords := ai.keywords, ai_insights := some ai
          created_by := uid, created_at := now, file_type := some file_type }
      .ok book

/-! ## Authentication (server.py 30-33, 183-212, 634-678) -/

/-- `JWT_SECRET` (server.py 31). -/
def JWT_SECRET : String := "vidyaverse_secret_key_2025"

/-- `JWT_ALGORITHM` (server.py 32). -/
def JWT_ALGORITHM : String := "HS256"

/-- `JWT_EXPIRATION_TIME = timedelta(days=7)` (server.py 33), in
seconds. -/
def JWT_EXPIRATION_SECONDS : Nat := 7 * 24 * 60 * 60

/-- The payload dict of `create_access_token` (server.py 190-193). -/
structure JwtPayload where
  user_id : String
  exp : Nat
deriving Repr, DecidableEq

/-- A signed token: `jwt.encode(payload, secret, algorithm)` is modelled
by the data it signs over. -/
structure JwtToken where
  payload : JwtPayload
  secret : String
  alg : String
deriving Repr, DecidableEq

/-- `create_access_token` (server.py 189-194). -/
def create_access_token (user_id : String) (now : Nat) : JwtToken :=
  { payload := { user_id := user_id, exp := now + JWT_EXPIRATION_SECONDS }
    secret := JWT_SECRET, alg := JWT_ALGORITHM }

/-- The response shape without `password_hash` and `created_at`
(pydantic `UserResponse`, server.py 76-85). -/
structure UserResponse where
  id : String
  email : String
  name : String
  grade : Option String
  subjects : List String
  selected_textbooks : List (String × List String)
  preferences : List (String × String)
  reading_history : List String
  onboarding_completed : Bool
deriving Repr, DecidableEq

/-- `UserResponse(**user.dict())`: pydantic keeps the declared fields
and ignores the extra `password_hash` and `created_at` keys. -/
def UserResponse.ofUser (u : User) : UserResponse :=
  { id := u.id, email := u.email, name := u.name, grade := u.grade
    subjects := u.subjects, selected_textbooks := u.selected_textbooks
    preferences := u.preferences, reading_history := u.reading_history
    onboarding_completed := u.onboarding_completed }

/-- A fresh user document (server.py 46-57, 643-647): every defaulted
field at its declared default, the id freshly generated. -/
def mkUser (genId email name password_hash : String) (now : Nat) : User :=
  { id := genId, email := email, name := name
    password_hash := password_hash, grade := none, subjects := []
    selected_textbooks := [], preferences := [], reading_history := []
    onboarding_completed := false, created_at := now }

/-- The successful login/registration body (server.py 654-658, 670-674):
message, token and shaped user. -/
structure AuthOut where
  message : String
  token : JwtToken
  user : UserResponse
deriving Repr, DecidableEq

/-- `register` (server.py 634-658): reject an existing email with 400,
otherwise hash, store and answer with a token. `hashpw` models
`hash_password` (bcrypt with a fresh salt). -/
def register (users : List User) (email name password : String)
    (hashpw : String → String) (genId : String) (now : Nat) :
    Except Nat (AuthOut × List User) :=
  match users.find? (fun u => u.email == email) with
  | some _ => .error 400
  | none =>
      let u := mkUser genId email name (hashpw password) now
      .ok ({ message := "Registration successful"
             token := create_access_token u.id now
             user := UserResponse.ofUser u }, users ++ [u])

/-- `login` (server.py 660-674): find the user by email, verify the
password with bcrypt (`checkpw` models `bcrypt.checkpw`), and answer 401
with a fixed detail otherwise. -/
def login (users : List User) (checkpw : String → String → Bool)
    (email password : String) (now : Nat) :
    Except (Nat × String) AuthOut :=
  match users.find? (fun u => u.email == email) with
  | none => .error (401, "Invalid email or password")
  | some u =>
      if checkpw password u.password_hash then
        .ok { message := "Login successful"
              token := create_access_token u.id now
              user := UserResponse.ofUser u }
      else .error (401, "Invalid email or password")

/-- `get_profile` (server.py 676-678). -/
def get_profile (current_user : User) : UserResponse :=
  UserResponse.ofUser current_user

/-- Set or replace a key of an association list (the document-store
`$set` on `selected_textbooks.{subject}`, server.py 711-718). -/
def setAssoc (l : List (String × List String)) (k : String)
    (v : List String) : List (String × List String) :=
  if l.any (fun p => p.1 == k) then
    l.map (fun p => if p.1 == k then (k, v) else p)
  else l ++ [(k, v)]

/-- `complete_onboarding` (server.py 680-703): set grade, subjects and
the onboarding flag, answer with the shaped updated user. -/
def complete_onboarding (current_user : User) (grade : String)
    (subjects : List String) : User × UserResponse :=
  let u := { current_user with
             grade := some grade
             subjects := subjects
             onboarding_completed := true }
  (u, UserResponse.ofUser u)

/-- `save_textbook_selection` (server.py 705-726): set the subject's
textbook list, answer with the shaped updated user. -/
def save_textbook_selection (current_user : User) (subject : String)
    (textbook_ids : List String) : User × UserResponse :=
  let u := { current_user with
             selected_textbooks :=
               setAssoc current_user.selected_textbooks subject textbook_ids }
  (u, UserResponse.ofUser u)

/-! ## Generated-id records and single-record reads
(server.py 87-103, 160-176, 746-751, 866-871) -/

/-- A stored textbook document (pydantic `Textbook`, server.py 87-103),
with `chapters : List[Dict]` as title/description pairs. -/
structure Textbook where
  id : String
  title : String
  description : String
  subject : String
  grade_levels : List String
  author : String
  publisher : Option String
  isbn : Option String
  chapters : List (String × String)
  difficulty_level : String
  topics_covered : List String
  learning_objectives : List String
  prerequisites : List String
  thumbnail_url : Option String
  content_type : String
  created_at : Nat
deriving Repr, DecidableEq

/-- A reading-session document (pydantic `ReadingSession`,
server.py 160-169); the `float` progress carries a `ℚ`. -/
structure ReadingSession where
  id : String
  user_id : String
  book_id : String
  progress : ℚ
  notes : String
  bookmarks : List Int
  reading_time : Int
  created_at : Nat
  updated_at : Nat
deriving Repr, DecidableEq

/-- A recommendation document (pydantic `Recommendation`,
server.py 171-176). -/
structure Recommendation where
  id : String
  user_id : String
  recommended_books : List String
  reasoning : String
  created_at : Nat
deriving Repr, DecidableEq

/-- A fresh textbook document: the id is the generated value
(server.py 88). -/
def mkTextbook (genId title description subject : String)
    (grade_levels : List String) (author : String) (now : Nat) : Textbook :=
  { id := genId, title := title, description := description
    subject := subject, grade_levels := grade_levels, author := author
    publisher := none, isbn := none, chapters := []
    difficulty_level := "Intermediate", topics_covered := []
    learning_objectives := [], prerequisites := [], thumbnail_url := none
    content_type := "textbook", created_at := now }

/-- A fresh reading session (server.py 160-169, 980-983): progress 0,
empty notes and bookmarks, zero reading time. -/
def mkReadingSession (genId uid bid : String) (now : Nat) : ReadingSession :=
  { id := genId, user_id := uid, book_id := bid, progress := 0
    notes := "", bookmarks := [], reading_time := 0
    created_at := now, updated_at := now }

/-- A fresh recommendation document (server.py 920-924). -/
def mkRecommendation (genId uid : String) (recommended_books : List String)
    (reasoning : String) (now : Nat) : Recommendation :=
  { id := genId, user_id := uid, recommended_books := recommended_books
    reasoning := reasoning, created_at := now }

/-- `get_book` (server.py 866-871): `find_one({"id": book_id})`, 404
when absent. -/
def get_book (books : List Book) (book_id : String) : Except Nat Book :=
  match books.find? (fun b => b.id == book_id) with
  | none => .error 404
  | some b => .ok b

/-- `get_textbook` (server.py 746-751): `find_one({"id": textbook_id})`,
404 when absent. -/
def get_textbook (textbooks : List Textbook) (textbook_id : String) :
    Except Nat Textbook :=
  match textbooks.find? (fun t => t.id == textbook_id) with
  | none => .error 404
  | some t => .ok t

/-! ## Reading sessions (server.py 961-1025) -/

/-- Mongo `$addToSet`: append only when absent. -/
def addToSet (l : List String) (x : String) : List String :=
  if x ∈ l then l else l ++ [x]

/-- Mongo `update_one`: rewrite the first element matching the filter,
leave everything else in place. -/
def updateFirst {α : Type} (p : α → Bool) (f : α → α) : List α → List α
  | [] => []
  | x :: xs => if p x then f x :: xs else x :: updateFirst p f xs

/-- Result of `create_reading_session`: the answered session and the
updated session and user collections. -/
structure CreateSessionOut where
  session : ReadingSession
  sessions : List ReadingSession
  users : List User
deriving Repr, DecidableEq

/-- `create_reading_session` (server.py 961-993): 404 on a missing book,
an existing (user, book) session is returned untouched, otherwise one
fresh session is inserted and the book id `$addToSet`-ed into the user's
reading history. -/
def create_reading_session (books : List Book) (sessions : List ReadingSession)
    (users : List User) (uid bid genId : String) (now : Nat) :
    Except Nat CreateSessionOut :=
  match books.find? (fun b => b.id == bid) with
  | none => .error 404
  | some _ =>
      match sessions.find? (fun s => s.user_id == uid && s.book_id == bid) with
      | some s => .ok { session := s, sessions := sessions, users := users }
      | none =>
          let s := mkReadingSession genId uid bid now
          .ok { session := s
                sessions := sessions ++ [s]
                users := updateFirst (fun u => u.id == uid)
                  (fun u => { u with reading_history := addToSet u.reading_history bid })
                  users }

/-- The `$set` document of `update_reading_session` (server.py 1010-1018). -/
def setSessionFields (progress : ℚ) (notes : String) (bookmarks : List Int)
    (reading_time : Int) (now : Nat) (s : ReadingSession) : ReadingSession :=
  { s with progress := progress, notes := notes, bookmarks := bookmarks
           reading_time := reading_time, updated_at := now }

/-- `update_reading_session` (server.py 995-1025): `update_one` filters
on both the session id and the authenticated user's id; zero matches is
404; the answer re-reads the session by id alone. The second component
is the session collection after the call. -/
def update_reading_session (sessions : List ReadingSession)
    (sid uid : String) (progress : ℚ) (notes : String)
    (bookmarks : List Int) (reading_time : Int) (now : Nat) :
    Except Nat ReadingSession × List ReadingSession :=
  let p := fun s : ReadingSession => s.id == sid && s.user_id == uid
  let sessions' :=
    updateFirst p (setSessionFields progress notes bookmarks reading_time now)
      sessions
  if sessions.any p then
    match sessions'.find? (fun s => s.id == sid) with
    | some s => (.ok s, sessions')
    | none => (.error 500, sessions')
  else (.error 404, sessions')

/-! ## Concrete sample records, used to evaluate the embedding on closed
inputs. -/

/-- A concrete book record. -/
def sampleBook : Book :=
  { id := "b1", title := "Algebra Basics", author := "Ada"
    content := "numbers and variables"
    grade_level := some "7th", subject := some "Mathematics"
    textbook_id := none, chapter := none, file_url := none
    summary := "", keywords := [], ai_insights := none
    created_by := "u1", created_at := 0, file_type := some "text" }

/-- A concrete reading session. -/
def sampleSession : ReadingSession := mkReadingSession "s1" "u1" "b1" 3

/-- A concrete reading session of another user. -/
def sampleSession2 : ReadingSession := mkReadingSession "s2" "u2" "b1" 4

/-- A concrete user record. -/
def sampleUser : User :=
  { id := "u1", email := "ada@example.com", name := "Ada"
    password_hash := "h0", grade := some "7th"
    subjects := ["Mathematics"], selected_textbooks := []
    preferences := [], reading_history := []
    onboarding_completed := false, created_at := 0 }

end Vidyaverse

namespace Vidyaverse

/-- C1: an unparseable model response yields the single static fallback
object, independent of the response text. -/
theorem claim1 : ∀ (raw title author : String) (gl subj : Option String),
    get_ai_analysis (.parseFail raw) title author gl subj =
      { summary := "Educational content analysis available"
        learning_objectives := ["Comprehensive learning experience"]
        topics := ["Various educational topics"]
        themes := ["Educational content"]
        recommended_grade := pyOr gl "5th"
        subject_category := pyOr subj "General Education"
        difficulty := "Intermediate"
        educational_value := "Engaging educational content"
        keywords := [title.toLower, author.toLower]
        prerequisites := "Basic reading comprehension" } := by
  intro raw title author gl subj
  rfl

/-- The fallback fold keeps its accumulator split into a block of
grade/subject matches followed by a block of non-matches, every element
passing the substring test. -/
theorem searchFallback_split (query : String) (ug : Option String)
    (us : List String) :
    ∀ (books front back : List Book),
      (∀ b ∈ front, searchMatches query b = true ∧ gradeSubjectMatch ug us b = true) →
      (∀ b ∈ back, searchMatches query b = true ∧ gradeSubjectMatch ug us b = false) →
      ∃ front' back',
        books.foldl (searchFallbackStep query ug us) (front ++ back) =
          front' ++ back' ∧
        (∀ b ∈ front', searchMatches query b = true ∧ gradeSubjectMatch ug us b = true) ∧
        (∀ b ∈ back', searchMatches query b = true ∧ gradeSubjectMatch ug us b = false) := by
  intro books
  induction books with
  | nil =>
      intro front back hf hb
      exact ⟨front, back, rfl, hf, hb⟩
  | cons b bs ih =>
      intro front back hf hb
      simp only [List.foldl_cons]
      by_cases hm : searchMatches query b = true
      · by_cases hg : gradeSubjectMatch ug us b = true
        · have step_eq : searchFallbackStep query ug us (front ++ back) b =
              (b :: front) ++ back := by
            simp [searchFallbackStep, hm, hg]
          rw [step_eq]
          refine ih (b :: front) back ?_ hb
          intro x hx
          rcases List.mem_cons.mp hx with hx | hx
          · exact hx ▸ ⟨hm, hg⟩
          · exact hf x hx
        · have step_eq : searchFallbackStep query ug us (front ++ back) b =
              front ++ (back ++ [b]) := by
            simp [searchFallbackStep, hm, hg]
          rw [step_eq]
          refine ih front (back ++ [b]) hf ?_
          intro x hx
          rcases List.mem_append.mp hx with hx | hx
          · exact hb x hx
          · have hxb : x = b := by simpa using hx
            exact hxb ▸ ⟨hm, Bool.eq_false_iff.mpr hg⟩
      · have step_eq : searchFallbackStep query ug us (front ++ back) b =
            front ++ back := by
          simp [searchFallbackStep, hm]
        rw [step_eq]
        exact ih front back hf hb

/-- C2: on a parse failure semantic search returns the substring fallback
(at most 10 books, each matching the lowercased query in title, author or
the first 1000 characters of the content, grade/subject matches first);
a parsed response is looked up by id instead; a raise yields `[]` for
search and, when unread books exist, an empty recommendation with the
"temporarily unavailable" reasoning. -/
theorem claim2 : ∀ (books : List Book) (ug : Option String) (us : List String)
    (query raw : String) (u : User) (allb : List Book) (ids : List String),
    ((get_semantic_search_results books ug us query (.parseFail raw)).results =
        searchFallback books query ug us ∧
      (get_semantic_search_results books ug us query (.parseFail raw)).results.length ≤ 10 ∧
      (∀ b ∈ (get_semantic_search_results books ug us query (.parseFail raw)).results,
        searchMatches query b = true) ∧
      (∃ (front back : List Book),
        (get_semantic_search_results books ug us query (.parseFail raw)).results =
          (front ++ back).take 10 ∧
        (∀ b ∈ front, gradeSubjectMatch ug us b = true) ∧
        (∀ b ∈ back, gradeSubjectMatch ug us b = false))) ∧
    (get_semantic_search_results books ug us query .raised).results = [] ∧
    (get_semantic_search_results books ug us query (.parsed ids)).results =
      ids.filterMap (fun i => books.find? (fun b => b.id == i)) ∧
    (unreadBooks allb u.reading_history ≠ [] →
      generate_recommendations (some u) allb .raised =
        { prompt_candidates :=
            ((unreadBooks allb u.reading_history).take 30).map candidateOf
          recommended_books := []
          reasoning := "Recommendations temporarily unavailable" }) := by
  intro books ug us query raw u allb ids
  obtain ⟨front, back, hsplit, hfront, hback⟩ :=
    searchFallback_split query ug us books [] []
      (by intro x hx; cases hx) (by intro x hx; cases hx)
  rw [List.nil_append] at hsplit
  have hres : (get_semantic_search_results books ug us query (.parseFail raw)).results =
      (front ++ back).take 10 := by
    show searchFallback books query ug us = (front ++ back).take 10
    rw [searchFallback, hsplit]
  refine ⟨⟨rfl, ?_, ?_, ?_⟩, rfl, rfl, ?_⟩
  · rw [hres]
    simp only [List.length_take]
    omega
  · intro b hb
    rw [hres] at hb
    have hb' : b ∈ front ++ back := List.take_subset 10 _ hb
    rcases List.mem_append.mp hb' with h | h
    · exact (hfront b h).1
    · exact (hback b h).1
  · exact ⟨front, back, hres, fun b h => (hfront b h).2, fun b h => (hback b h).2⟩
  · intro hne
    have hempty : (unreadBooks allb u.reading_history).isEmpty = false := by
      simpa [List.isEmpty_iff] using hne
    simp [generate_recommendations, hempty]

/-- C2 witness: concrete evaluation of the raise branch of
recommendation generation. -/
theorem claim2_witness :
    unreadBooks [sampleBook] sampleUser.reading_history ≠ [] ∧
    generate_recommendations (some sampleUser) [sampleBook] .raised =
      { prompt_candidates :=
          ((unreadBooks [sampleBook] sampleUser.reading_history).take 30).map candidateOf
        recommended_books := []
        reasoning := "Recommendations temporarily unavailable" } :=
  ⟨by decide,
    (claim2 [] none [] "" "" sampleUser [sampleBook] []).2.2.2 (by decide)⟩

/-- C3: every prompt embeds at most 30 candidate records: search embeds
exactly the first 20 books, recommendations exactly the first 30 unread
books. -/
theorem claim3 : ∀ (books : List Book) (ug : Option String) (us : List String)
    (query : String) (o : LlmCall (List String)) (u : User)
    (o' : LlmCall RecParsed),
    (get_semantic_search_results books ug us query o).prompt_candidates =
      (books.take 20).map candidateOf ∧
    (get_semantic_search_results books ug us query o).prompt_candidates.length ≤ 30 ∧
    (generate_recommendations (some u) books o').prompt_candidates.length ≤ 30 ∧
    (unreadBooks books u.reading_history ≠ [] →
      (generate_recommendations (some u) books o').prompt_candidates =
        ((unreadBooks books u.reading_history).take 30).map candidateOf) := by
  intro books ug us query o u o'
  refine ⟨rfl, ?_, ?_, ?_⟩
  · show ((books.take 20).map candidateOf).length ≤ 30
    simp only [List.length_map, List.length_take]
    omega
  · by_cases hempty : (unreadBooks books u.reading_history).isEmpty
    · simp [generate_recommendations, hempty]
    · rw [Bool.not_eq_true] at hempty
      cases o' <;> simp [generate_recommendations, hempty, List.length_take]
  · intro hne
    have hempty : (unreadBooks books u.reading_history).isEmpty = false := by
      simpa [List.isEmpty_iff] using hne
    cases o' <;> simp [generate_recommendations, hempty]

/-- C3 witness: concrete evaluation of the prompt caps. -/
theorem claim3_witness :
    (get_semantic_search_results [sampleBook] none [] "x" .raised).prompt_candidates =
      (([sampleBook] : List Book).take 20).map candidateOf ∧
    (generate_recommendations (some sampleUser) [sampleBook] .raised).prompt_candidates =
      ((unreadBooks [sampleBook] sampleUser.reading_history).take 30).map candidateOf :=
  ⟨(claim3 [sampleBook] none [] "x" .raised sampleUser .raised).1,
    (claim3 [sampleBook] none [] "x" .raised sampleUser .raised).2.2.2 (by decide)⟩

/-- C4: `extract_pdf_text` is a total function into `String`; pdfplumber
text is returned when it has a non-whitespace character, otherwise (and
when pdfplumber raises) the PyPDF2 block answers, and when PyPDF2 raises
too the literal error string is returned. -/
theorem claim4 : ∀ (pypdf : Option (List String)) (pages : List (Option String)),
    (pyStripTruthy (plumberText pages) = true →
      extract_pdf_text (some pages) pypdf = plumberText pages) ∧
    (pyStripTruthy (plumberText pages) = false →
      extract_pdf_text (some pages) pypdf = pypdf2Text pypdf) ∧
    extract_pdf_text none pypdf = pypdf2Text pypdf ∧
    (∀ ps, pypdf2Text (some ps) = ps.foldl (fun text t => text ++ t ++ "\n") "") ∧
    pypdf2Text none = "Could not extract text from PDF" := by
  intro pypdf pages
  refine ⟨?_, ?_, rfl, fun ps => rfl, rfl⟩
  · intro h
    simp [extract_pdf_text, h]
  · intro h
    simp [extract_pdf_text, h]

/-- C4 witness: a page with text is kept; a whitespace-only extraction
falls through to the literal error string when PyPDF2 also fails. -/
theorem claim4_witness :
    (pyStripTruthy (plumberText [some "Hello"]) = true ∧
      extract_pdf_text (some [some "Hello"]) none = plumberText [some "Hello"]) ∧
    (pyStripTruthy (plumberText [some " "]) = false ∧
      extract_pdf_text (some [some " "]) none = pypdf2Text none) :=
  ⟨⟨by decide, (claim4 none [some "Hello"]).1 (by decide)⟩,
    ⟨by decide, (claim4 none [some " "]).2.1 (by decide)⟩⟩

/-- Decoding inverts encoding on every alphabet character. -/
theorem b64DecChar_encChar : ∀ n < 64, b64DecChar (b64EncChar n) = some n := by
  decide

/-- Alphabet characters are never the padding character. -/
theorem b64EncChar_ne_pad : ∀ n < 64, b64EncChar n ≠ '=' := by
  decide

/-- Base64 decoding inverts base64 encoding on byte lists. -/
theorem b64_roundtrip : ∀ bs : List Nat, (∀ x ∈ bs, x < 256) →
    b64Decode (b64Encode bs) = some bs := by
  intro bs
  match bs with
  | [] => intro _; rfl
  | [a] =>
      intro h
      have ha : a < 256 := h a (by simp)
      have e1 := b64DecChar_encChar (a / 4) (by omega)
      have e2 := b64DecChar_encChar (a % 4 * 16) (by omega)
      simp [b64Encode, b64Decode, e1, e2]
      omega
  | [a, b] =>
      intro h
      have ha : a < 256 := h a (by simp)
      have hb : b < 256 := h b (by simp)
      have e1 := b64DecChar_encChar (a / 4) (by omega)
      have e2 := b64DecChar_encChar (a % 4 * 16 + b / 16) (by omega)
      have e3 := b64DecChar_encChar (b % 16 * 4) (by omega)
      have hne3 := b64EncChar_ne_pad (b % 16 * 4) (by omega)
      simp [b64Encode, b64Decode, e1, e2, e3, hne3]
      omega
  | a :: b :: c :: rest =>
      intro h
      have ha : a < 256 := h a (by simp)
      have hb : b < 256 := h b (by simp)
      have hc : c < 256 := h c (by simp)
      have ih := b64_roundtrip rest (fun x hx => h x (by simp [hx]))
      have e1 := b64DecChar_encChar (a / 4) (by omega)
      have e2 := b64DecChar_encChar (a % 4 * 16 + b / 16) (by omega)
      have e3 := b64DecChar_encChar (b % 16 * 4 + c / 64) (by omega)
      have e4 := b64DecChar_encChar (c % 64) (by omega)
      have hne3 := b64EncChar_ne_pad (b % 16 * 4 + c / 64) (by omega)
      have hne4 := b64EncChar_ne_pad (c % 64) (by omega)
      simp [b64Encode, b64Decode, e1, e2, e3, e4, hne3, hne4, ih]
      omega

/-- C5: a stored upload's `file_url` is the data URL whose base64 payload
decodes back to the raw uploaded bytes, and a content type that is neither
`application/pdf` nor `text/*` is rejected with HTTP 400 before anything
is stored. -/
theorem claim5 : ∀ (title author : String) (gl subj tb ch : Option String)
    (content_type : String) (file_content : List Nat)
    (textDecode : Option String)
    (plumber : Option (List (Option String))) (pypdf : Option (List String))
    (ai : LlmCall AIData) (genId uid : String) (now : Nat),
    (∀ x ∈ file_content, x < 256) →
    ((content_type ≠ "application/pdf" ∧
        listStartsWith "text/".toList content_type.toList = false) →
      upload_book title author gl subj tb ch content_type file_content
        textDecode plumber pypdf ai genId uid now = .error 400) ∧
    (∀ bk, upload_book title author gl subj tb ch content_type file_content
        textDecode plumber pypdf ai genId uid now = .ok bk →
      bk.file_url = some ("data:" ++ content_type ++ ";base64," ++
        b64EncodeString file_content) ∧
      b64DecodeString (b64EncodeString file_content) = some file_content) := by
  intro title author gl subj tb ch content_type file_content textDecode
    plumber pypdf ai genId uid now hbytes
  constructor
  · intro hct
    have hext : uploadExtract content_type textDecode plumber pypdf = .error 400 := by
      unfold uploadExtract
      rw [if_neg hct.1, if_neg (by simpa using hct.2)]
    simp [upload_book, hext]
  · intro bk hok
    refine ⟨?_, b64_roundtrip file_content hbytes⟩
    cases hext : uploadExtract content_type textDecode plumber pypdf with
    | error e =>
        rw [upload_book, hext] at hok
        cases hok
    | ok pr =>
        rw [upload_book, hext] at hok
        cases pr with
        | mk t ft =>
            cases hok
            rfl

/-- C5 witness: an unsupported content type is rejected with 400, and a
concrete byte list survives the base64 round trip. -/
theorem claim5_witness :
    upload_book "T" "A" none none none none "image/png" [0, 1, 255] none none
        none .raised "b9" "u1" 0 = .error 400 ∧
    b64DecodeString (b64EncodeString [0, 1, 255]) = some [0, 1, 255] :=
  ⟨(claim5 "T" "A" none none none none "image/png" [0, 1, 255] none none none
        .raised "b9" "u1" 0 (by decide)).1 ⟨by decide, by decide⟩,
    ((claim5 "T" "A" none none none none "text/plain" [0, 1, 255] (some "hi")
        none none .raised "b9" "u1" 0 (by decide)).2 _ rfl).2⟩

/-- In a user list with pairwise distinct emails, two members sharing an
email are the same record. -/
theorem mem_eq_of_email_eq : ∀ (users : List User),
    users.Pairwise (fun a b => a.email ≠ b.email) →
    ∀ u ∈ users, ∀ v ∈ users, u.email = v.email → u = v := by
  intro users
  induction users with
  | nil =>
      intro _ u hu
      cases hu
  | cons x xs ih =>
      intro hpw u hu v hv he
      rcases List.pairwise_cons.mp hpw with ⟨hx, hxs⟩
      rcases List.mem_cons.mp hu with rfl | hu' <;>
        rcases List.mem_cons.mp hv with rfl | hv'
      · rfl
      · exact absurd he (hx v hv')
      · exact absurd he.symm (hx u hu')
      · exact ih hxs u hu' v hv' he

/-- C6: login succeeds iff a stored user carries the email and bcrypt
accepts the password against that user's hash; success yields an HS256
token over the user's id expiring 7 days from now; otherwise HTTP 401
"Invalid email or password". -/
theorem claim6 : ∀ (users : List User) (checkpw : String → String → Bool)
    (email password : String) (now : Nat),
    users.Pairwise (fun a b => a.email ≠ b.email) →
    ((∃ out, login users checkpw email password now = .ok out) ↔
      ∃ u ∈ users, u.email = email ∧ checkpw password u.password_hash = true) ∧
    (∀ u ∈ users, u.email = email → checkpw password u.password_hash = true →
      login users checkpw email password now =
        .ok { message := "Login successful"
              token := { payload := { user_id := u.id
                                      exp := now + 7 * 24 * 60 * 60 }
                         secret := JWT_SECRET, alg := "HS256" }
              user := UserResponse.ofUser u }) ∧
    ((¬ ∃ u ∈ users, u.email = email ∧ checkpw password u.password_hash = true) →
      login users checkpw email password now =
        .error (401, "Invalid email or password")) := by
  intro users checkpw email password now hpw
  cases hF : users.find? (fun u => u.email == email) with
  | none =>
      have hnone := List.find?_eq_none.mp hF
      refine ⟨⟨?_, ?_⟩, ?_, ?_⟩
      · rintro ⟨out, hout⟩
        simp only [login] at hout
        rw [hF] at hout
        cases hout
      · rintro ⟨u, hu, he, _⟩
        exact absurd (by simp [he]) (hnone u hu)
      · intro u hu he _
        exact absurd (by simp [he]) (hnone u hu)
      · intro _
        simp only [login]
        rw [hF]
  | some u0 =>
      have hmem := List.mem_of_find?_eq_some hF
      have hemail : u0.email = email := by
        simpa using List.find?_some hF
      by_cases hck : checkpw password u0.password_hash = true
      · refine ⟨⟨fun _ => ⟨u0, hmem, hemail, hck⟩, fun _ => ?_⟩, ?_, ?_⟩
        · refine ⟨{ message := "Login successful"
                    token := create_access_token u0.id now
                    user := UserResponse.ofUser u0 }, ?_⟩
          simp only [login]
          rw [hF]
          simp [hck]
        · intro u hu he hcku
          have hu0 : u = u0 :=
            mem_eq_of_email_eq users hpw u hu u0 hmem (he.trans hemail.symm)
          subst hu0
          simp only [login]
          rw [hF]
          simp [hck, create_access_token, JWT_EXPIRATION_SECONDS,
            JWT_SECRET, JWT_ALGORITHM]
        · intro hno
          exact absurd ⟨u0, hmem, hemail, hck⟩ hno
      · refine ⟨⟨?_, ?_⟩, ?_, ?_⟩
        · rintro ⟨out, hout⟩
          simp only [login] at hout
          rw [hF] at hout
          simp [hck] at hout
        · rintro ⟨u, hu, he, hcku⟩
          have hu0 : u = u0 :=
            mem_eq_of_email_eq users hpw u hu u0 hmem (he.trans hemail.symm)
          exact absurd (hu0 ▸ hcku) hck
        · intro u hu he hcku
          have hu0 : u = u0 :=
            mem_eq_of_email_eq users hpw u hu u0 hmem (he.trans hemail.symm)
          exact absurd (hu0 ▸ hcku) hck
        · intro _
          simp only [login]
          rw [hF]
          simp [hck]

/-- C6 witness: a concrete one-user store logs in with the right
password and is refused with a wrong one. -/
theorem claim6_witness :
    login [sampleUser] (fun p h => p == "pw" && h == "h0")
        "ada@example.com" "pw" 0 =
      .ok { message := "Login successful"
            token := { payload := { user_id := "u1", exp := 0 + 7 * 24 * 60 * 60 }
                       secret := JWT_SECRET, alg := "HS256" }
            user := UserResponse.ofUser sampleUser } ∧
    login [sampleUser] (fun p h => p == "pw" && h == "h0")
        "ada@example.com" "wrong" 0 =
      .error (401, "Invalid email or password") :=
  ⟨(claim6 [sampleUser] (fun p h => p == "pw" && h == "h0")
      "ada@example.com" "pw" 0 (by simp)).2.1 sampleUser (by simp) rfl (by decide),
    (claim6 [sampleUser] (fun p h => p == "pw" && h == "h0")
      "ada@example.com" "wrong" 0 (by simp)).2.2 (by
        rintro ⟨u, hu, -, hck⟩
        simp only [List.mem_singleton] at hu
        subst hu
        simp [sampleUser] at hck)⟩

/-- C7: every record constructor keys the document by the generated id,
and single-record reads answer 404 exactly when no stored record carries
the requested id. -/
theorem claim7 : ∀ (g email name hash title descr subj : String)
    (gls : List String) (author uid bid : String) (books : List Book)
    (tbs : List Textbook) (now : Nat) (rb : List String) (reas : String),
    (mkUser g email name hash now).id = g ∧
    (create_book title author none none none none none .raised g uid now).id = g ∧
    (mkTextbook g title descr subj gls author now).id = g ∧
    (mkReadingSession g uid bid now).id = g ∧
    (mkRecommendation g uid rb reas now).id = g ∧
    ((∀ b ∈ books, b.id ≠ bid) → get_book books bid = .error 404) ∧
    (∀ b ∈ books, b.id = bid →
      ∃ b', get_book books bid = .ok b' ∧ b'.id = bid) ∧
    ((∀ t ∈ tbs, t.id ≠ bid) → get_textbook tbs bid = .error 404) ∧
    (∀ t ∈ tbs, t.id = bid →
      ∃ t', get_textbook tbs bid = .ok t' ∧ t'.id = bid) := by
  intro g email name hash title descr subj gls author uid bid books tbs now rb reas
  refine ⟨rfl, rfl, rfl, rfl, rfl, ?_, ?_, ?_, ?_⟩
  · intro hnone
    have hF : books.find? (fun b => b.id == bid) = none :=
      List.find?_eq_none.mpr (fun b hb => by simp [hnone b hb])
    simp [get_book, hF]
  · intro b hb hid
    have hsome : (books.find? (fun b => b.id == bid)).isSome :=
      List.find?_isSome.mpr ⟨b, hb, by simp [hid]⟩
    obtain ⟨b', hb'⟩ := Option.isSome_iff_exists.mp hsome
    exact ⟨b', by simp [get_book, hb'], by simpa using List.find?_some hb'⟩
  · intro hnone
    have hF : tbs.find? (fun t => t.id == bid) = none :=
      List.find?_eq_none.mpr (fun t ht => by simp [hnone t ht])
    simp [get_textbook, hF]
  · intro t ht hid
    have hsome : (tbs.find? (fun t => t.id == bid)).isSome :=
      List.find?_isSome.mpr ⟨t, ht, by simp [hid]⟩
    obtain ⟨t', ht'⟩ := Option.isSome_iff_exists.mp hsome
    exact ⟨t', by simp [get_textbook, ht'], by simpa using List.find?_some ht'⟩

/-- C7 witness: concrete id keying and concrete 404/200 reads. -/
theorem claim7_witness :
    (mkUser "u9" "e@e" "N" "h" 0).id = "u9" ∧
    get_book ([] : List Book) "b1" = .error 404 ∧
    ∃ b', get_book [sampleBook] "b1" = .ok b' ∧ b'.id = "b1" :=
  ⟨(claim7 "u9" "e@e" "N" "h" "T" "D" "S" [] "A" "u" "b1" [] [] 0 [] "r").1,
    (claim7 "u9" "e@e" "N" "h" "T" "D" "S" [] "A" "u" "b1" [] [] 0 [] "r").2.2.2.2.2.1
      (by simp),
    (claim7 "u9" "e@e" "N" "h" "T" "D" "S" [] "A" "u" "b1" [sampleBook] [] 0 []
        "r").2.2.2.2.2.2.1 sampleBook (by simp) rfl⟩

/-- C8: an existing (user, book) session is returned with nothing
inserted; otherwise exactly one fresh session with progress 0 is inserted
and the book id is set-inserted into the reading history, which therefore
stays duplicate-free. -/
theorem claim8 : ∀ (books : List Book) (sessions : List ReadingSession)
    (users : List User) (uid bid genId : String) (now : Nat)
    (s : ReadingSession) (b : Book) (l : List String) (x : String),
    (sessions.find? (fun s => s.user_id == uid && s.book_id == bid) = some s →
      books.find? (fun b => b.id == bid) = some b →
      create_reading_session books sessions users uid bid genId now =
        .ok { session := s, sessions := sessions, users := users }) ∧
    (sessions.find? (fun s => s.user_id == uid && s.book_id == bid) = none →
      books.find? (fun b => b.id == bid) = some b →
      create_reading_session books sessions users uid bid genId now =
        .ok { session := mkReadingSession genId uid bid now
              sessions := sessions ++ [mkReadingSession genId uid bid now]
              users := updateFirst (fun u => u.id == uid)
                (fun u => { u with
                            reading_history := addToSet u.reading_history bid })
                users }) ∧
    (mkReadingSession genId uid bid now).progress = 0 ∧
    (l.Nodup → (addToSet l x).Nodup) := by
  intro books sessions users uid bid genId now s b l x
  refine ⟨?_, ?_, rfl, ?_⟩
  · intro hsess hbook
    simp only [create_reading_session]
    rw [hbook, hsess]
  · intro hsess hbook
    simp only [create_reading_session]
    rw [hbook, hsess]
  · intro hnd
    by_cases hmem : x ∈ l
    · simpa [addToSet, hmem] using hnd
    · simp [addToSet, hmem, List.nodup_append, hnd]

/-- C8 witness: concrete first session creation and a concrete
duplicate-free set insert. -/
theorem claim8_witness :
    create_reading_session [sampleBook] [] [sampleUser] "u1" "b1" "s1" 5 =
      .ok { session := mkReadingSession "s1" "u1" "b1" 5
            sessions := [] ++ [mkReadingSession "s1" "u1" "b1" 5]
            users := updateFirst (fun u => u.id == "u1")
              (fun u => { u with
                          reading_history := addToSet u.reading_history "b1" })
              [sampleUser] } ∧
    (addToSet ["b1"] "b1").Nodup :=
  ⟨(claim8 [sampleBook] [] [sampleUser] "u1" "b1" "s1" 5 sampleSession sampleBook
      ["b1"] "b1").2.1 rfl (by decide),
    (claim8 [sampleBook] [] [sampleUser] "u1" "b1" "s1" 5 sampleSession sampleBook
      ["b1"] "b1").2.2.2 (by decide)⟩

/-- C9: `UserResponse` carries no `password_hash`, so every user-shaped
response is identical under any two stored hashes; the register output is
independent of the hash function, and every successful login answers with
the shaped record of a stored user. -/
theorem claim9 : ∀ (u : User) (h₁ h₂ g : String) (s : List String)
    (subj : String) (tids : List String),
    UserResponse.ofUser { u with password_hash := h₁ } =
      UserResponse.ofUser { u with password_hash := h₂ } ∧
    get_profile { u with password_hash := h₁ } =
      get_profile { u with password_hash := h₂ } ∧
    (complete_onboarding { u with password_hash := h₁ } g s).2 =
      (complete_onboarding { u with password_hash := h₂ } g s).2 ∧
    (save_textbook_selection { u with password_hash := h₁ } subj tids).2 =
      (save_textbook_selection { u with password_hash := h₂ } subj tids).2 ∧
    (∀ (users : List User) (email name pw : String) (hp₁ hp₂ : String → String)
        (gid : String) (now : Nat),
      (register users email name pw hp₁ gid now).map Prod.fst =
        (register users email name pw hp₂ gid now).map Prod.fst) ∧
    (∀ (users : List User) (checkpw : String → String → Bool)
        (email pw : String) (now : Nat) (out : AuthOut),
      login users checkpw email pw now = .ok out →
      ∃ u₀ ∈ users, out.user = UserResponse.ofUser u₀) := by
  intro u h₁ h₂ g s subj tids
  refine ⟨rfl, rfl, rfl, rfl, ?_, ?_⟩
  · intro users email name pw hp₁ hp₂ gid now
    cases hF : users.find? (fun v => v.email == email) <;>
      simp [register, hF, UserResponse.ofUser, mkUser, create_access_token,
        Except.map]
  · intro users checkpw email pw now out hout
    simp only [login] at hout
    cases hF : users.find? (fun u => u.email == email) with
    | none =>
        rw [hF] at hout
        cases hout
    | some u0 =>
        rw [hF] at hout
        by_cases hck : checkpw pw u0.password_hash = true
        · have hok : Except.ok (ε := Nat × String)
              { message := "Login successful"
                token := create_access_token u0.id now
                user := UserResponse.ofUser u0 } = Except.ok out := by
            rw [← hout]
            simp [hck]
          cases hok
          exact ⟨u0, List.mem_of_find?_eq_some hF, rfl⟩
        · simp [hck] at hout

/-- C9 witness: a concrete user yields hash-independent responses, and a
concrete successful login answers with a stored user's shaped record. -/
theorem claim9_witness :
    UserResponse.ofUser { sampleUser with password_hash := "a" } =
      UserResponse.ofUser { sampleUser with password_hash := "b" } ∧
    ∃ u₀ ∈ [sampleUser],
      ({ message := "Login successful"
         token := create_access_token "u1" 0
         user := UserResponse.ofUser sampleUser } : AuthOut).user =
        UserResponse.ofUser u₀ :=
  ⟨(claim9 sampleUser "a" "b" "g" [] "s" []).1,
    (claim9 sampleUser "a" "b" "g" [] "s" []).2.2.2.2.2
      [sampleUser] (fun p h => p == "pw" && h == "h0") "ada@example.com" "pw" 0
      { message := "Login successful"
        token := create_access_token "u1" 0
        user := UserResponse.ofUser sampleUser } rfl⟩

/-- `updateFirst` is the identity when nothing matches. -/
theorem updateFirst_of_not_any {α : Type} (p : α → Bool) (f : α → α) :
    ∀ l : List α, l.any p = false → updateFirst p f l = l := by
  intro l
  induction l with
  | nil => intro _; rfl
  | cons a as ih =>
      intro h
      rw [List.any_cons] at h
      have hpa : p a = false := by
        cases hp : p a
        · rfl
        · rw [hp] at h; simp at h
      have has : as.any p = false := by
        rw [hpa] at h; simpa using h
      simp [updateFirst, hpa, ih has]

/-- A non-matching element survives `updateFirst` unchanged. -/
theorem updateFirst_mem_of_not {α : Type} (p : α → Bool) (f : α → α) :
    ∀ (l : List α) (x : α), x ∈ l → p x = false → x ∈ updateFirst p f l := by
  intro l
  induction l with
  | nil => intro x hx; cases hx
  | cons a as ih =>
      intro x hx hpx
      rcases List.mem_cons.mp hx with rfl | hx'
      · simp [updateFirst, hpx]
      · by_cases hpa : p a = true
        · simp only [updateFirst, hpa, if_true]
          exact List.mem_cons_of_mem _ hx'
        · simp only [updateFirst, hpa, if_false]
          exact List.mem_cons_of_mem _ (ih x hx' hpx)

/-- When a match exists, `updateFirst` rewrites exactly the first
matching element. -/
theorem updateFirst_split {α : Type} (p : α → Bool) (f : α → α) :
    ∀ l : List α, l.any p = true →
      ∃ l₁ x l₂, l = l₁ ++ x :: l₂ ∧ p x = true ∧ (∀ y ∈ l₁, p y = false) ∧
        updateFirst p f l = l₁ ++ f x :: l₂ := by
  intro l
  induction l with
  | nil => intro h; cases h
  | cons a as ih =>
      intro h
      by_cases hpa : p a = true
      · exact ⟨[], a, as, rfl, hpa, by simp, by simp [updateFirst, hpa]⟩
      · have hfa : p a = false := Bool.eq_false_iff.mpr hpa
        have has : as.any p = true := by
          rw [List.any_cons, hfa] at h
          simpa using h
        obtain ⟨l₁, x, l₂, heq, hpx, hl₁, hupd⟩ := ih has
        refine ⟨a :: l₁, x, l₂, by simp [heq], hpx, ?_, ?_⟩
        · intro y hy
          rcases List.mem_cons.mp hy with rfl | hy'
          · exact hfa
          · exact hl₁ y hy'
        · simp [updateFirst, hpa, hupd]

/-- The session collection after `update_reading_session` is always the
`updateFirst` rewrite of the old one. -/
theorem update_reading_session_snd (sessions : List ReadingSession)
    (sid uid : String) (progress : ℚ) (notes : String) (bookmarks : List Int)
    (reading_time : Int) (now : Nat) :
    (update_reading_session sessions sid uid progress notes bookmarks
        reading_time now).2 =
      updateFirst (fun s => s.id == sid && s.user_id == uid)
        (setSessionFields progress notes bookmarks reading_time now) sessions := by
  simp only [update_reading_session]
  split
  · split <;> rfl
  · rfl

/-- C10: with no session matching both the id and the user, the call is
404 and the collection is untouched; non-matching sessions survive any
call unchanged; on a match the first matching session gets exactly the
four payload fields and `updated_at` overwritten, with id, user, book
and creation time preserved. -/
theorem claim10 : ∀ (sessions : List ReadingSession) (sid uid : String)
    (progress : ℚ) (notes : String) (bookmarks : List Int)
    (reading_time : Int) (now : Nat),
    ((∀ s ∈ sessions, ¬(s.id = sid ∧ s.user_id = uid)) →
      update_reading_session sessions sid uid progress notes bookmarks
        reading_time now = (.error 404, sessions)) ∧
    (∀ s ∈ sessions, ¬(s.id = sid ∧ s.user_id = uid) →
      s ∈ (update_reading_session sessions sid uid progress notes bookmarks
        reading_time now).2) ∧
    (sessions.Pairwise (fun a b => a.id ≠ b.id) →
      (∃ s ∈ sessions, s.id = sid ∧ s.user_id = uid) →
      ∃ s₀ ∈ sessions, s₀.id = sid ∧ s₀.user_id = uid ∧
        (update_reading_session sessions sid uid progress notes bookmarks
            reading_time now).1 =
          .ok (setSessionFields progress notes bookmarks reading_time now s₀)) ∧
    (∀ s : ReadingSession,
      (setSessionFields progress notes bookmarks reading_time now s).progress
          = progress ∧
      (setSessionFields progress notes bookmarks reading_time now s).notes
          = notes ∧
      (setSessionFields progress notes bookmarks reading_time now s).bookmarks
          = bookmarks ∧
      (setSessionFields progress notes bookmarks reading_time now
          s).reading_time = reading_time ∧
      (setSessionFields progress notes bookmarks reading_time now s).updated_at
          = now ∧
      (setSessionFields progress notes bookmarks reading_time now s).id = s.id ∧
      (setSessionFields progress notes bookmarks reading_time now s).user_id
          = s.user_id ∧
      (setSessionFields progress notes bookmarks reading_time now s).book_id
          = s.book_id ∧
      (setSessionFields progress notes bookmarks reading_time now s).created_at
          = s.created_at) := by
  intro sessions sid uid progress notes bookmarks reading_time now
  refine ⟨?_, ?_, ?_, fun s => ⟨rfl, rfl, rfl, rfl, rfl, rfl, rfl, rfl, rfl⟩⟩
  · intro hno
    have hany : sessions.any (fun s => s.id == sid && s.user_id == uid) = false := by
      rw [List.any_eq_false]
      intro s hs
      simpa using hno s hs
    have hupd := updateFirst_of_not_any
      (fun s : ReadingSession => s.id == sid && s.user_id == uid)
      (setSessionFields progress notes bookmarks reading_time now) sessions hany
    simp only [update_reading_session]
    rw [hany]
    simp [hupd]
  · intro s hs hnp
    rw [update_reading_session_snd]
    exact updateFirst_mem_of_not _ _ sessions s hs (by simpa using hnp)
  · intro hpw hex
    have hany : sessions.any (fun s => s.id == sid && s.user_id == uid) = true := by
      rw [List.any_eq_true]
      obtain ⟨s, hs, h1, h2⟩ := hex
      exact ⟨s, hs, by simp [h1, h2]⟩
    obtain ⟨l₁, x, l₂, heq, hpx, hl₁, hupd⟩ := updateFirst_split
      (fun s : ReadingSession => s.id == sid && s.user_id == uid)
      (setSessionFields progress notes bookmarks reading_time now) sessions hany
    have hxid : x.id = sid := by
      have := hpx
      simp only [Bool.and_eq_true, beq_iff_eq] at this
      exact this.1
    have hxuid : x.user_id = uid := by
      have := hpx
      simp only [Bool.and_eq_true, beq_iff_eq] at this
      exact this.2
    have hxmem : x ∈ sessions := by
      rw [heq]
      exact List.mem_append_right _ (List.mem_cons_self _ _)
    refine ⟨x, hxmem, hxid, hxuid, ?_⟩
    have hl₁id : ∀ y ∈ l₁, ¬(y.id == sid) = true := by
      intro y hy
      have hy' : y ∈ sessions := by
        rw [heq]; exact List.mem_append_left _ hy
      have hne : y.id ≠ x.id := by
        rw [heq] at hpw
        have := (List.pairwise_append.mp hpw).2.2 y hy x (List.mem_cons_self _ _)
        exact this
      simp only [beq_iff_eq]
      intro hc
      exact hne (hc.trans hxid.symm)
    have hfind : (l₁ ++ setSessionFields progress notes bookmarks reading_time
        now x :: l₂).find? (fun s => s.id == sid) =
        some (setSessionFields progress notes bookmarks reading_time now x) := by
      rw [List.find?_append]
      have hnone : l₁.find? (fun s : ReadingSession => s.id == sid) = none :=
        List.find?_eq_none.mpr hl₁id
      rw [hnone]
      simp [List.find?_cons, setSessionFields, hxid]
    simp only [update_reading_session]
    rw [hany]
    simp only [if_true]
    rw [hupd, hfind]

/-- C10 witness: a wrong-user update is 404 with the collection intact,
and a matching update rewrites exactly the matched session. -/
theorem claim10_witness :
    update_reading_session [sampleSession] "s1" "u2" 1 "n" [2] 7 9 =
      (.error 404, [sampleSession]) ∧
    ∃ s₀ ∈ [sampleSession2, sampleSession],
      s₀.id = "s1" ∧ s₀.user_id = "u1" ∧
      (update_reading_session [sampleSession2, sampleSession] "s1" "u1"
          1 "n" [2] 7 9).1 = .ok (setSessionFields 1 "n" [2] 7 9 s₀) :=
  ⟨(claim10 [sampleSession] "s1" "u2" 1 "n" [2] 7 9).1 (by decide),
    (claim10 [sampleSession2, sampleSession] "s1" "u1" 1 "n" [2] 7 9).2.2.1
      (by decide)
      ⟨sampleSession, by decide, by decide, by decide⟩⟩

end Vidyaverse
